import Mathlib

/-!
Shallow embedding of `library/locker.py` and `library/encryption.py` from the
`custom-library` repository, together with theorems checking the repository's
specification against it.

Modelling conventions:
- Python ints are `Nat` (flags, error codes, cursor positions) or `Int`
  (the lock length, which is `-1` on Python 2).
- A file handle is its file descriptor, its cursor position and its textual
  access mode; `handle.tell()` and `handle.seek(p)` are modelled as total
  operations on the cursor (they are plain cursor moves on an open handle).
- The OS primitives (`msvcrt.locking`, `LockFileEx`, `UnlockFileEx`) are an
  environment mapping each call to its outcome: success, an `IOError` with a
  `strerror`, or a `pywintypes.error` with a `winerror` code and a `strerror`.
- Exceptions are explicit outcome values; a Python `finally` block becomes an
  unconditional final step on every path of the definition.
- Each call records a trace of the seeks and OS primitive invocations it
  performs, so theorems can speak about which branch and primitive ran.
-/

namespace CustomLib

/-! ### Platform constants

Values of the CPython `msvcrt` module constants and of the `win32con` /
`winerror` constants the source imports. -/

def LK_UNLCK : Nat := 0
def LK_LOCK : Nat := 1
def LK_NBLCK : Nat := 2
def LK_RLCK : Nat := 3
def LK_NBRLCK : Nat := 4
def LOCKFILE_FAIL_IMMEDIATELY : Nat := 1
def ERROR_LOCK_VIOLATION : Nat := 33
def ERROR_NOT_LOCKED : Nat := 158

/-! ### The LOCK flag vocabulary (`class LOCK(IntFlag)` in locker.py) -/

namespace LOCK

def EX : Nat := 0x1
def SH : Nat := 0x2
def NB : Nat := 0x4
def UN : Nat := LK_UNLCK

end LOCK

/-! ### File handles -/

/-- An open file handle as the locking core sees it: a file descriptor
identity, the current cursor position, and the textual access mode. -/
structure Handle where
  fd : Nat
  cursor : Nat
  mode : String
  deriving DecidableEq, Repr

/-- `handle.seek(p)`: move the cursor to `p`. -/
def seekHandle (h : Handle) (p : Nat) : Handle :=
  ⟨h.fd, p, h.mode⟩

/-! ### Outcomes of the OS primitives -/

/-- Outcome of a `msvcrt.locking` call: success, or an `IOError`
carrying its `strerror` message. -/
inductive CrtResult where
  | ok
  | ioError (strerror : String)
  deriving DecidableEq, Repr

/-- Outcome of a `LockFileEx` / `UnlockFileEx` call: success, or a
`pywintypes.error` carrying its `winerror` code and `strerror` message. -/
inductive WinResult where
  | ok
  | winError (winerror : Nat) (strerror : String)
  deriving DecidableEq, Repr

/-- The OS environment: what each lock primitive reports when invoked.
`lockingResult` takes the `msvcrt.locking` mode and length; `lockFileExResult`
takes the `LockFileEx` flag word; `unlockFileExResult` is the outcome of the
`UnlockFileEx` fallback call. -/
structure LockEnv where
  lockingResult : Nat → Int → CrtResult
  lockFileExResult : Nat → WinResult
  unlockFileExResult : WinResult

/-- How a `lock` / `unlock` call ends: normal return, a raised
`LockException(LockException.LOCK_FAILED, strerror, handle)`, or an
underlying `pywintypes.error` re-raised unchanged. -/
inductive Outcome where
  | ok
  | lockFailed (strerror : String) (fd : Nat)
  | winErrorRaised (winerror : Nat) (strerror : String)
  deriving DecidableEq, Repr

/-- Trace events recorded by a call: cursor seeks and OS primitive
invocations.  `lockingCall` records the cursor position at the moment
`msvcrt.locking` runs, the mode constant and the length argument. -/
inductive Event where
  | seek (pos : Nat)
  | lockingCall (pos : Nat) (mode : Nat) (length : Int)
  | lockFileExCall (mode : Nat)
  | unlockFileExCall
  deriving DecidableEq, Repr

/-- Result of a `lock` / `unlock` call: the outcome, the handle as the
caller sees it afterwards, and the trace of performed operations. -/
structure LockResult where
  outcome : Outcome
  handle : Handle
  trace : List Event
  deriving DecidableEq, Repr

/-! ### FileLock -/

namespace FileLock

/-- The `FileLock._flags` class dictionary: default flags per resolved mode. -/
def flags_dict (mode : String) : Option Nat :=
  if mode = "w" then some LOCK.EX
  else if mode = "a" then some LOCK.EX
  else if mode = "x" then some LOCK.EX
  else if mode = "r" then some LOCK.SH
  else none

/-- Python `str.strip(chars)`: remove leading and trailing characters that
belong to `cs`. -/
def stripSet (cs : List Char) (s : String) : String :=
  String.mk (((s.toList.dropWhile (fun c => c ∈ cs)).reverse.dropWhile
    (fun c => c ∈ cs)).reverse)

/-- `FileLock._get_mode`: the handle mode with the characters of "tb+"
stripped from both ends. -/
def get_mode (mode : String) : String :=
  stripSet ['t', 'b', '+'] mode

/-- `FileLock.get_flags`: look up the resolved mode in `_flags`
(`dict.get`, so an unknown mode yields `None`). -/
def get_flags (handleMode : String) : Option Nat :=
  flags_dict (get_mode handleMode)

/-- `FileLock.__init__`: `self.lock_length` is `-1` on Python 2 and
`int(2**31 - 1)` otherwise. -/
def lock_length (pythonMajor : Nat) : Int :=
  if pythonMajor = 2 then -1 else 2 ^ 31 - 1

/-- The `LockFileEx` mode word chosen in the shared branch of `lock`:
on Python 2 it is `LOCKFILE_FAIL_IMMEDIATELY` or `0`, otherwise
`LK_NBRLCK` or `LK_RLCK`, by the `NB` bit. -/
def sharedMode (pythonMajor : Nat) (flags : Nat) : Nat :=
  if pythonMajor = 2 then
    if flags &&& LOCK.NB ≠ 0 then LOCKFILE_FAIL_IMMEDIATELY else 0
  else
    if flags &&& LOCK.NB ≠ 0 then LK_NBRLCK else LK_RLCK

/-- The `msvcrt.locking` mode chosen in the exclusive branch of `lock`:
`LK_NBLCK` when the `NB` bit is set, else the blocking `LK_LOCK`. -/
def exclusiveMode (flags : Nat) : Nat :=
  if flags &&& LOCK.NB ≠ 0 then LK_NBLCK else LK_LOCK

/-- The shared branch of `FileLock.lock` (`if flags & LOCK.SH`): call
`LockFileEx` on the sentinel region; on `ERROR_LOCK_VIOLATION` raise
`LockException`, on any other `pywintypes.error` re-raise unchanged.
The cursor is not touched in this branch. -/
def lockShared (env : LockEnv) (pythonMajor : Nat) (h : Handle) (flags : Nat) :
    LockResult :=
  match env.lockFileExResult (sharedMode pythonMajor flags) with
  | WinResult.ok =>
      ⟨Outcome.ok, h, [Event.lockFileExCall (sharedMode pythonMajor flags)]⟩
  | WinResult.winError we se =>
      if we = ERROR_LOCK_VIOLATION then
        ⟨Outcome.lockFailed se h.fd, h,
          [Event.lockFileExCall (sharedMode pythonMajor flags)]⟩
      else
        ⟨Outcome.winErrorRaised we se, h,
          [Event.lockFileExCall (sharedMode pythonMajor flags)]⟩

/-- The exclusive branch of `FileLock.lock` (the `else` of
`if flags & LOCK.SH`): save the cursor, seek to 0 when it is non-zero, call
`msvcrt.locking` for `lock_length` bytes, wrap an `IOError` into
`LockException`, and restore the cursor in the `finally` block on every
path. -/
def lockExclusive (env : LockEnv) (pythonMajor : Nat) (h : Handle) (flags : Nat) :
    LockResult :=
  let save := h.cursor
  let h1 := if save ≠ 0 then seekHandle h 0 else h
  let outcome :=
    match env.lockingResult (exclusiveMode flags) (lock_length pythonMajor) with
    | CrtResult.ok => Outcome.ok
    | CrtResult.ioError se => Outcome.lockFailed se h.fd
  let h2 := if save ≠ 0 then seekHandle h1 save else h1
  ⟨outcome, h2,
    (if save ≠ 0 then [Event.seek 0] else []) ++
    [Event.lockingCall h1.cursor (exclusiveMode flags) (lock_length pythonMajor)] ++
    (if save ≠ 0 then [Event.seek save] else [])⟩

/-- `FileLock.lock`: the shared branch when the `SH` bit is set, the
exclusive branch otherwise. -/
def lock (env : LockEnv) (pythonMajor : Nat) (h : Handle) (flags : Nat) :
    LockResult :=
  if flags &&& LOCK.SH ≠ 0 then lockShared env pythonMajor h flags
  else lockExclusive env pythonMajor h flags

/-- The inner try of `FileLock.unlock`: `msvcrt.locking(fd, LOCK.UN, ...)`;
on an `IOError` whose `strerror` is "Permission denied", fall back to
`UnlockFileEx` over the sentinel region, swallowing `ERROR_NOT_LOCKED` and
wrapping any other `pywintypes.error` into `LockException`; any other
`IOError` is wrapped into `LockException`.  Returns the outcome and the
trace of fallback calls. -/
def unlockInner (env : LockEnv) (pythonMajor : Nat) (h : Handle) :
    Outcome × List Event :=
  match env.lockingResult LOCK.UN (lock_length pythonMajor) with
  | CrtResult.ok => (Outcome.ok, [])
  | CrtResult.ioError se =>
      if se = "Permission denied" then
        match env.unlockFileExResult with
        | WinResult.ok => (Outcome.ok, [Event.unlockFileExCall])
        | WinResult.winError we se2 =>
            if we = ERROR_NOT_LOCKED then (Outcome.ok, [Event.unlockFileExCall])
            else (Outcome.lockFailed se2 h.fd, [Event.unlockFileExCall])
      else (Outcome.lockFailed se h.fd, [])

/-- `FileLock.unlock`: save the cursor, seek to 0 when non-zero, run the
inner unlock logic, and restore the cursor in the `finally` block on every
path. -/
def unlock (env : LockEnv) (pythonMajor : Nat) (h : Handle) : LockResult :=
  let save := h.cursor
  let h1 := if save ≠ 0 then seekHandle h 0 else h
  let inner := unlockInner env pythonMajor h
  let h2 := if save ≠ 0 then seekHandle h1 save else h1
  ⟨inner.1, h2,
    (if save ≠ 0 then [Event.seek 0] else []) ++
    [Event.lockingCall h1.cursor LOCK.UN (lock_length pythonMajor)] ++
    inner.2 ++
    (if save ≠ 0 then [Event.seek save] else [])⟩

end FileLock

/-! ### The singleton machinery (`singleton` decorator and `MetaSingleton`)

Classes are identified by a `Nat` id; constructing a class (`cls(...)`)
yields a fresh instance id drawn from a counter and is recorded in
`constructed`, so theorems can count how many times a constructor ran. -/

/-- Process-wide singleton state: the `INSTANCES` mapping from class id to
instance id, a fresh-instance counter, and the list of classes whose
constructor has run, in order.

The `INSTANCES` table lives in `library/constants.py`, which is not among
the sources.  Modelled from the spec: "SingletonInstanceTable:
process-wide mapping from lock-engine type identity to its one instance.
Created empty at process start" — a dictionary, empty initially. -/
structure SingletonState where
  table : List (Nat × Nat)
  nextId : Nat
  constructed : List Nat
  deriving DecidableEq, Repr

/-- Python `d.get(k)` / `k in d` lookup on the modelled dictionary. -/
def dictGet (t : List (Nat × Nat)) (k : Nat) : Option Nat :=
  match t with
  | [] => none
  | (k2, v) :: rest => if k2 = k then some v else dictGet rest k

/-- Python `d[k] = v`: overwrite the binding of `k` or append a new one. -/
def dictSet (t : List (Nat × Nat)) (k v : Nat) : List (Nat × Nat) :=
  match t with
  | [] => [(k, v)]
  | (k2, v2) :: rest =>
      if k2 = k then (k2, v) :: rest else (k2, v2) :: dictSet rest k v

/-- The state at process start: `INSTANCES` empty, no constructions. -/
def initSingletonState : SingletonState := ⟨[], 0, []⟩

/-- One call of the `singleton` decorator's `wrapper` for class `cls`:
`if cls not in INSTANCES: instance = cls(...); INSTANCES[cls] = instance`,
then `return INSTANCES[cls]`. -/
def singleton_call (cls : Nat) (s : SingletonState) :
    Option Nat × SingletonState :=
  if (dictGet s.table cls).isNone then
    let inst := s.nextId
    let s2 : SingletonState :=
      ⟨dictSet s.table cls inst, s.nextId + 1, s.constructed ++ [cls]⟩
    (dictGet s2.table cls, s2)
  else
    (dictGet s.table cls, s)

/-- Run a sequence of wrapper calls (class ids, in order), returning each
call's result paired with its class, and the final state. -/
def runCalls (calls : List Nat) (s : SingletonState) :
    List (Nat × Option Nat) × SingletonState :=
  match calls with
  | [] => ([], s)
  | c :: rest =>
      let r := singleton_call c s
      let rest2 := runCalls rest r.2
      ((c, r.1) :: rest2.1, rest2.2)

/-- `MetaSingleton.__call__` state for one class: the `_instance`
attribute, absent until first construction. -/
def metaSingletonCall (inst : Option Nat) (fresh : Nat) : Nat × Option Nat :=
  match inst with
  | none => (fresh, some fresh)
  | some i => (i, some i)

/-! ### Interleaved execution of the `singleton` wrapper by two threads

The wrapper body splits into its atomic steps: evaluate
`cls not in INSTANCES`, run the constructor `cls(...)`, perform the store
`INSTANCES[cls] = instance`, and evaluate `return INSTANCES[cls]`.  The
source takes no lock anywhere in the wrapper, so any interleaving of the
two threads' steps is possible. -/

/-- Program counter of one thread inside the wrapper. -/
inductive TPC where
  | start
  | construct
  | store (inst : Nat)
  | ret
  | done (result : Option Nat)
  deriving DecidableEq, Repr

/-- One atomic step of a thread running the wrapper for class `cls`. -/
def threadStep (cls : Nat) (t : TPC) (s : SingletonState) :
    TPC × SingletonState :=
  match t with
  | TPC.start =>
      if (dictGet s.table cls).isNone then (TPC.construct, s) else (TPC.ret, s)
  | TPC.construct =>
      (TPC.store s.nextId, ⟨s.table, s.nextId + 1, s.constructed ++ [cls]⟩)
  | TPC.store inst => (TPC.ret, ⟨dictSet s.table cls inst, s.nextId, s.constructed⟩)
  | TPC.ret => (TPC.done (dictGet s.table cls), s)
  | TPC.done r => (TPC.done r, s)

/-- Two threads and the shared singleton state. -/
structure TwoThreads where
  ta : TPC
  tb : TPC
  shared : SingletonState
  deriving DecidableEq, Repr

/-- Run one scheduled step: `false` steps thread A, `true` steps thread B. -/
def schedStep (cls : Nat) (st : TwoThreads) (who : Bool) : TwoThreads :=
  if who then
    let p := threadStep cls st.tb st.shared
    ⟨st.ta, p.1, p.2⟩
  else
    let p := threadStep cls st.ta st.shared
    ⟨p.1, st.tb, p.2⟩

/-- Run a whole schedule. -/
def runSched (cls : Nat) (sched : List Bool) (st : TwoThreads) : TwoThreads :=
  match sched with
  | [] => st
  | w :: rest => runSched cls rest (schedStep cls st w)

/-- Both threads at the start of the wrapper, state at process start. -/
def twoThreadsInit : TwoThreads := ⟨TPC.start, TPC.start, initSingletonState⟩

/-! ### The encryption layer (`library/encryption.py`)

Byte strings are `List Nat`.  The pieces the source delegates to are
modelled from the spec (see each doc comment): the repository's own
`utils.encode` / `utils.decode` are not among the sources, and the key
derivation and Fernet are external collaborators the spec describes as
`derive_key` / `encrypt` / `decrypt`. -/

/-- Byte strings. -/
abbrev Bytes := List Nat

/-- Modelled from the spec: `library.utils.encode` (the `utils` module is
not among the sources) — conversion of str/bytes input to bytes, the
identity on byte content. -/
def encode (v : Bytes) : Bytes := v

/-- Modelled from the spec: `library.utils.decode` (the `utils` module is
not among the sources) — conversion of bytes to text, the identity on
byte content. -/
def decode (v : Bytes) : Bytes := v

/-- Modelled from the spec: the key material produced by the external
key-derivation collaborator, `derive_key(secret, salt, iterations=200000,
length=32, SHA-256) -> key_material` — deterministic in the secret and the
salt, represented by that pair. -/
structure KeyMaterial where
  secret : Bytes
  salt : Bytes
  deriving DecidableEq, Repr

/-- Modelled from the spec: the Base64 text encoding applied to derived key
material before it is handed to the encryption primitive ("Key material is
further text-encoded (Base64 alphabet)") — an injective re-wrapping. -/
structure B64Key where
  material : KeyMaterial
  deriving DecidableEq, Repr

/-- `class Symmetric`: holds the KDF parameterised by `encode(salt)`. -/
structure Symmetric where
  salt : Bytes
  deriving DecidableEq, Repr

/-- `Symmetric.__init__(salt)`: build the KDF over `encode(salt)`. -/
def Symmetric.init (salt : Bytes) : Symmetric := ⟨encode salt⟩

/-- `Symmetric.__derive(value)`: run the KDF.  Modelled from the spec:
the PBKDF2HMAC collaborator derives key material from the password and
the configured salt. -/
def Symmetric.derive (s : Symmetric) (value : Bytes) : KeyMaterial :=
  ⟨value, s.salt⟩

/-- `Symmetric.key(value)`: derive from `encode(value)` and Base64-encode. -/
def Symmetric.key (s : Symmetric) (value : Bytes) : B64Key :=
  ⟨s.derive (encode value)⟩

/-- Modelled from the spec: an opaque token of the authenticated-encryption
collaborator (Fernet), bound to the key that produced it. -/
structure Token where
  key : B64Key
  plaintext : Bytes
  deriving DecidableEq, Repr

/-- Result of a decryption: the plaintext, or the `InvalidToken` failure. -/
inductive DecryptResult where
  | ok (plaintext : Bytes)
  | invalidToken
  deriving DecidableEq, Repr

/-- Modelled from the spec: `encrypt(key, plaintext) -> opaque_token` of
the authenticated-encryption collaborator. -/
def fernetEncrypt (k : B64Key) (v : Bytes) : Token := ⟨k, v⟩

/-- Modelled from the spec: `decrypt(key, token) -> plaintext |
fails-with(InvalidTokenError)` of the authenticated-encryption
collaborator — authentication succeeds exactly for the producing key. -/
def fernetDecrypt (k : B64Key) (t : Token) : DecryptResult :=
  if t.key = k then DecryptResult.ok t.plaintext else DecryptResult.invalidToken

/-- `class Cypher`: `self.__key`, `None` until `password` is called. -/
structure Cypher where
  key : Option B64Key
  deriving DecidableEq, Repr

/-- `Cypher.__init__`: no key yet. -/
def Cypher.init : Cypher := ⟨none⟩

/-- `Cypher.password(value, salt)`:
`self.__key = Symmetric(encode(salt)).key(encode(value))`. -/
def Cypher.password (_c : Cypher) (value : Bytes) (salt : Bytes) : Cypher :=
  ⟨some ((Symmetric.init (encode salt)).key (encode value))⟩

/-- `Cypher.encrypt(value)`: `decode(Fernet(self.__key).encrypt(encode(value)))`;
without a key the Fernet constructor cannot be built (`none`). -/
def Cypher.encrypt (c : Cypher) (value : Bytes) : Option Token :=
  match c.key with
  | some k => some (fernetEncrypt k (encode value))
  | none => none

/-- `Cypher.decrypt(value)`: `decode(Fernet(self.__key).decrypt(encode(value)))`,
re-raising `InvalidToken` unchanged; without a key, `none`. -/
def Cypher.decrypt (c : Cypher) (t : Token) : Option DecryptResult :=
  match c.key with
  | some k => some (fernetDecrypt k t)
  | none => none

/-! ### Concrete environments and handles used by witnesses -/

/-- An environment in which every OS primitive succeeds. -/
def envAllOk : LockEnv :=
  ⟨fun _ _ => CrtResult.ok, fun _ => WinResult.ok, WinResult.ok⟩

/-- An environment in which `LockFileEx` reports a lock violation. -/
def envLockViolation : LockEnv :=
  ⟨fun _ _ => CrtResult.ok,
   fun _ => WinResult.winError ERROR_LOCK_VIOLATION
     "The process cannot access the file because another process has locked a portion of the file.",
   WinResult.ok⟩

/-- An environment for an already-unlocked file: the whole-file unlock
primitive reports permission denied and the fallback reports the region
already unlocked. -/
def envAlreadyUnlocked : LockEnv :=
  ⟨fun _ _ => CrtResult.ioError "Permission denied",
   fun _ => WinResult.ok,
   WinResult.winError ERROR_NOT_LOCKED "The segment is already unlocked."⟩

/-- A handle with the cursor at the start of the file. -/
def h0 : Handle := ⟨1, 0, "r"⟩

/-- A handle with a non-zero cursor position. -/
def h5 : Handle := ⟨1, 5, "w"⟩

/-! ## Claims -/

/-- C1, the claim as stated is false: `get_flags` does not fail with an
`UnsupportedModeError` on a mode outside `{r, w, a, x}` — it is a
`dict.get` lookup and returns `None`.  At the concrete mode string "z"
it returns the value `none` rather than failing. -/
theorem c1_counterexample : FileLock.get_flags "z" = none := by decide

/-- C1 (amended): for a handle whose resolved mode is "w", "a" or "x",
`get_flags` returns `LOCK.EX` (EXCLUSIVE); for resolved mode "r" it
returns `LOCK.SH` (SHARED); and for any other resolved mode it returns
`None` — no error is raised. -/
theorem c1_mode_resolver (m : String) :
    ((FileLock.get_mode m = "w" ∨ FileLock.get_mode m = "a" ∨
      FileLock.get_mode m = "x") → FileLock.get_flags m = some LOCK.EX) ∧
    (FileLock.get_mode m = "r" → FileLock.get_flags m = some LOCK.SH) ∧
    ((FileLock.get_mode m ≠ "w" ∧ FileLock.get_mode m ≠ "a" ∧
      FileLock.get_mode m ≠ "x" ∧ FileLock.get_mode m ≠ "r") →
      FileLock.get_flags m = none) := by
  unfold FileLock.get_flags FileLock.flags_dict
  refine ⟨?_, ?_, ?_⟩
  · rintro (h | h | h) <;> simp [h]
  · intro h
    simp [h]
  · rintro ⟨h1, h2, h3, h4⟩
    simp [h1, h2, h3, h4]

/-- Witness for C1: `get_flags` evaluated on the concrete handle modes
"rb" (resolved "r") and "w+" (resolved "w"). -/
theorem c1_mode_resolver_witness :
    FileLock.get_flags "rb" = some LOCK.SH ∧
    FileLock.get_flags "w+" = some LOCK.EX :=
  ⟨(c1_mode_resolver "rb").2.1 (by decide),
   (c1_mode_resolver "w+").1 (Or.inl (by decide))⟩

/-- C2, the claim as stated is false: with both EX and SH set
(`flags = LOCK.EX ||| LOCK.SH = 3`), `lock` runs the shared branch — its
whole trace is the single `LockFileEx` call over the sentinel region and
the whole-file `msvcrt.locking` branch is never entered. -/
theorem c2_counterexample :
    FileLock.lock envAllOk 3 h0 (LOCK.EX ||| LOCK.SH) =
      ⟨Outcome.ok, h0, [Event.lockFileExCall LK_RLCK]⟩ := by decide

/-- C2 (amended): when flags has both the EXCLUSIVE and the SHARED bit
set, shared semantics win: `lock` executes the shared-lock branch (the
range primitive `LockFileEx`), not the exclusive whole-file branch. -/
theorem c2_shared_branch_wins (env : LockEnv) (pythonMajor : Nat) (h : Handle)
    (flags : Nat) (_hex : flags &&& LOCK.EX ≠ 0) (hsh : flags &&& LOCK.SH ≠ 0) :
    (FileLock.lock env pythonMajor h flags).trace =
      [Event.lockFileExCall (FileLock.sharedMode pythonMajor flags)] := by
  unfold FileLock.lock
  rw [if_pos hsh]
  unfold FileLock.lockShared
  cases env.lockFileExResult (FileLock.sharedMode pythonMajor flags) with
  | ok => rfl
  | winError we se =>
      by_cases hwe : we = ERROR_LOCK_VIOLATION <;> simp [hwe]

/-- Witness for C2 (amended): concrete flags `LOCK.EX ||| LOCK.SH`. -/
theorem c2_shared_branch_wins_witness :
    (FileLock.lock envAllOk 3 h0 (LOCK.EX ||| LOCK.SH)).trace =
      [Event.lockFileExCall (FileLock.sharedMode 3 (LOCK.EX ||| LOCK.SH))] :=
  c2_shared_branch_wins envAllOk 3 h0 (LOCK.EX ||| LOCK.SH)
    (by decide) (by decide)

/-- C3: cursor invariance — for every handle cursor position, every flag
word, every Python major version and every behaviour of the OS primitives
(success, `LockFailed`, or a propagated underlying error), the cursor
after `lock` and after `unlock` equals the cursor before the call. -/
theorem c3_cursor_invariance (env : LockEnv) (pythonMajor : Nat) (h : Handle)
    (flags : Nat) :
    (FileLock.lock env pythonMajor h flags).handle.cursor = h.cursor ∧
    (FileLock.unlock env pythonMajor h).handle.cursor = h.cursor := by
  constructor
  · unfold FileLock.lock
    split
    · unfold FileLock.lockShared
      cases env.lockFileExResult (FileLock.sharedMode pythonMajor flags) with
      | ok => rfl
      | winError we se =>
          by_cases hwe : we = ERROR_LOCK_VIOLATION <;> simp [hwe]
    · unfold FileLock.lockExclusive
      by_cases hc : h.cursor ≠ 0
      · simp [hc, seekHandle]
      · simp [hc, seekHandle]
  · unfold FileLock.unlock
    by_cases hc : h.cursor ≠ 0
    · simp [hc, seekHandle]
    · simp [hc, seekHandle]

/-- C4: when the whole-file unlock primitive fails with the
permission-class error, the `UnlockFileEx` fallback over the sentinel
region is invoked; a fallback report of `ERROR_NOT_LOCKED` (the region was
already unlocked, as after a successful previous unlock) is swallowed and
`unlock` succeeds; a successful fallback also succeeds; and any other
fallback failure is wrapped as `LockFailed` carrying the fallback message
and the handle. -/
theorem c4_unlock_fallback (env : LockEnv) (pythonMajor : Nat) (h : Handle)
    (hperm : env.lockingResult LOCK.UN (FileLock.lock_length pythonMajor) =
      CrtResult.ioError "Permission denied") :
    Event.unlockFileExCall ∈ (FileLock.unlock env pythonMajor h).trace ∧
    (∀ se, env.unlockFileExResult = WinResult.winError ERROR_NOT_LOCKED se →
      (FileLock.unlock env pythonMajor h).outcome = Outcome.ok) ∧
    (env.unlockFileExResult = WinResult.ok →
      (FileLock.unlock env pythonMajor h).outcome = Outcome.ok) ∧
    (∀ we se, env.unlockFileExResult = WinResult.winError we se →
      we ≠ ERROR_NOT_LOCKED →
      (FileLock.unlock env pythonMajor h).outcome =
        Outcome.lockFailed se h.fd) := by
  unfold FileLock.unlock FileLock.unlockInner
  rw [hperm]
  refine ⟨?_, ?_, ?_, ?_⟩
  · cases henv : env.unlockFileExResult with
    | ok => simp
    | winError we se =>
        by_cases hwe : we = ERROR_NOT_LOCKED <;> simp [hwe]
  · intro se hse
    rw [hse]
    simp
  · intro hok
    rw [hok]
    simp
  · intro we se hse hwe
    rw [hse]
    simp [hwe]

/-- Witness for C4: an already-unlocked file (primary primitive reports
permission denied, fallback reports `ERROR_NOT_LOCKED`): the fallback is
invoked and unlock succeeds. -/
theorem c4_unlock_fallback_witness :
    Event.unlockFileExCall ∈ (FileLock.unlock envAlreadyUnlocked 3 h5).trace ∧
    (FileLock.unlock envAlreadyUnlocked 3 h5).outcome = Outcome.ok :=
  ⟨(c4_unlock_fallback envAlreadyUnlocked 3 h5 rfl).1,
   (c4_unlock_fallback envAlreadyUnlocked 3 h5 rfl).2.1
     "The segment is already unlocked." rfl⟩

/-- C5: in the shared branch of `lock` (SH bit set): an underlying
`ERROR_LOCK_VIOLATION` becomes `LockFailed` carrying the underlying
message and the handle; any other underlying `pywintypes.error` is
re-raised unchanged; and the handle (in particular its cursor) is never
touched in this branch — its trace contains no seek. -/
theorem c5_shared_branch_errors (env : LockEnv) (pythonMajor : Nat)
    (h : Handle) (flags : Nat) (hsh : flags &&& LOCK.SH ≠ 0) :
    (∀ se, env.lockFileExResult (FileLock.sharedMode pythonMajor flags) =
        WinResult.winError ERROR_LOCK_VIOLATION se →
      (FileLock.lock env pythonMajor h flags).outcome =
        Outcome.lockFailed se h.fd) ∧
    (∀ we se, env.lockFileExResult (FileLock.sharedMode pythonMajor flags) =
        WinResult.winError we se → we ≠ ERROR_LOCK_VIOLATION →
      (FileLock.lock env pythonMajor h flags).outcome =
        Outcome.winErrorRaised we se) ∧
    (FileLock.lock env pythonMajor h flags).handle = h ∧
    (∀ p, Event.seek p ∉ (FileLock.lock env pythonMajor h flags).trace) := by
  unfold FileLock.lock
  rw [if_pos hsh]
  unfold FileLock.lockShared
  refine ⟨?_, ?_, ?_, ?_⟩
  · intro se hse
    rw [hse]
    simp
  · intro we se hse hwe
    rw [hse]
    simp [hwe]
  · cases env.lockFileExResult (FileLock.sharedMode pythonMajor flags) with
    | ok => rfl
    | winError we se =>
        by_cases hwe : we = ERROR_LOCK_VIOLATION <;> simp [hwe]
  · intro p
    cases env.lockFileExResult (FileLock.sharedMode pythonMajor flags) with
    | ok => simp
    | winError we se =>
        by_cases hwe : we = ERROR_LOCK_VIOLATION <;> simp [hwe]

/-- Witness for C5: a shared lock attempt under contention
(`ERROR_LOCK_VIOLATION`) fails with `LockFailed` carrying the OS message
and the handle's descriptor, without any seek. -/
theorem c5_shared_branch_errors_witness :
    (FileLock.lock envLockViolation 3 h5 LOCK.SH).outcome =
      Outcome.lockFailed
        "The process cannot access the file because another process has locked a portion of the file."
        h5.fd ∧
    Event.seek 0 ∉ (FileLock.lock envLockViolation 3 h5 LOCK.SH).trace :=
  ⟨(c5_shared_branch_errors envLockViolation 3 h5 LOCK.SH (by decide)).1
     "The process cannot access the file because another process has locked a portion of the file."
     rfl,
   (c5_shared_branch_errors envLockViolation 3 h5 LOCK.SH (by decide)).2.2.2 0⟩

/-- C6: in the exclusive branch of `lock` on Python 3 (SH bit clear): the
cursor is saved and, when non-zero, the handle is seeked to 0 first; the
`msvcrt.locking` primitive runs exactly once, at offset 0, for exactly
`lock_length = 2 ^ 31 - 1` bytes; its mode is the fail-immediately
`LK_NBLCK` when NB is set and the blocking `LK_LOCK` otherwise; and the
saved cursor is seeked back afterwards. -/
theorem c6_exclusive_branch (env : LockEnv) (h : Handle) (flags : Nat)
    (hnosh : flags &&& LOCK.SH = 0) :
    FileLock.lock_length 3 = 2 ^ 31 - 1 ∧
    (FileLock.lock env 3 h flags).trace =
      (if h.cursor ≠ 0 then [Event.seek 0] else []) ++
      [Event.lockingCall 0
        (if flags &&& LOCK.NB ≠ 0 then LK_NBLCK else LK_LOCK) (2 ^ 31 - 1)] ++
      (if h.cursor ≠ 0 then [Event.seek h.cursor] else []) := by
  refine ⟨by decide, ?_⟩
  unfold FileLock.lock
  rw [if_neg (by simp [hnosh])]
  unfold FileLock.lockExclusive FileLock.exclusiveMode
  by_cases hc : h.cursor ≠ 0
  · simp [hc, seekHandle, FileLock.lock_length]
  · simp only [ne_eq, not_not] at hc
    simp [hc, FileLock.lock_length]

/-- Witness for C6: a non-blocking exclusive lock from cursor position 5
seeks to 0, locks `2 ^ 31 - 1` bytes at offset 0 with `LK_NBLCK`, and
seeks back to 5. -/
theorem c6_exclusive_branch_witness :
    (FileLock.lock envAllOk 3 h5 (LOCK.EX ||| LOCK.NB)).trace =
      [Event.seek 0, Event.lockingCall 0 LK_NBLCK (2 ^ 31 - 1),
       Event.seek 5] := by
  have h2 := (c6_exclusive_branch envAllOk h5 (LOCK.EX ||| LOCK.NB)
    (by decide)).2
  rw [h2]
  decide

/-- C10: `LOCK.UN` is `LK_UNLCK = 0`, so `flags &&& LOCK.UN = 0` for every
flags word, `lock(handle, LOCK.UN)` is literally the same call as
`lock(handle, 0)`, and it does not unlock: it runs the exclusive branch
with the blocking `LK_LOCK` primitive (never the `LK_UNLCK` mode and never
`UnlockFileEx`). -/
theorem c10_un_flag_is_zero (env : LockEnv) (h : Handle) :
    LOCK.UN = 0 ∧
    (∀ flags : Nat, flags &&& LOCK.UN = 0) ∧
    FileLock.lock env 3 h LOCK.UN = FileLock.lock env 3 h 0 ∧
    (FileLock.lock env 3 h LOCK.UN).trace =
      (if h.cursor ≠ 0 then [Event.seek 0] else []) ++
      [Event.lockingCall 0 LK_LOCK (2 ^ 31 - 1)] ++
      (if h.cursor ≠ 0 then [Event.seek h.cursor] else []) := by
  refine ⟨rfl, fun flags => by simp [LOCK.UN, LK_UNLCK], rfl, ?_⟩
  unfold FileLock.lock
  rw [if_neg (by decide)]
  unfold FileLock.lockExclusive FileLock.exclusiveMode
  by_cases hc : h.cursor ≠ 0
  · simp [hc, seekHandle, FileLock.lock_length, LOCK.UN, LK_UNLCK, LOCK.NB]
  · simp only [ne_eq, not_not] at hc
    simp [hc, FileLock.lock_length, LOCK.UN, LK_UNLCK, LOCK.NB]

/-! ### Lemmas about the singleton dictionary and call sequence -/

theorem dictGet_dictSet_self (t : List (Nat × Nat)) (k v : Nat) :
    dictGet (dictSet t k v) k = some v := by
  induction t with
  | nil => simp [dictSet, dictGet]
  | cons p rest ih =>
      obtain ⟨k2, v2⟩ := p
      by_cases hk : k2 = k
      · simp [dictSet, dictGet, hk]
      · simp [dictSet, dictGet, hk, ih]

theorem dictGet_dictSet_other (t : List (Nat × Nat)) (k k2 v : Nat)
    (hne : k2 ≠ k) : dictGet (dictSet t k v) k2 = dictGet t k2 := by
  induction t with
  | nil => simp [dictSet, dictGet, Ne.symm hne]
  | cons p rest ih =>
      obtain ⟨k3, v3⟩ := p
      by_cases hk : k3 = k
      · subst hk
        simp [dictSet, dictGet, Ne.symm hne]
      · by_cases hk2 : k3 = k2
        · simp [dictSet, dictGet, hk, hk2, hne]
        · simp [dictSet, dictGet, hk, hk2, ih]

/-- A class already registered in `INSTANCES` stays registered with the
same instance across any wrapper call. -/
theorem singleton_call_preserves (c cls i : Nat) (s : SingletonState)
    (hi : dictGet s.table cls = some i) :
    dictGet (singleton_call c s).2.table cls = some i := by
  unfold singleton_call
  by_cases hc : (dictGet s.table c).isNone
  · have hne : cls ≠ c := by
      intro he
      subst he
      rw [hi] at hc
      simp at hc
    simp only [hc, if_true]
    rw [dictGet_dictSet_other s.table c cls s.nextId hne]
    exact hi
  · simp only [hc, if_false]
    exact hi

/-- A wrapper call for a class already registered returns the stored
instance and leaves the state untouched (no construction). -/
theorem singleton_call_found (cls i : Nat) (s : SingletonState)
    (hi : dictGet s.table cls = some i) :
    singleton_call cls s = (some i, s) := by
  unfold singleton_call
  simp [hi]

/-- After a wrapper call for `cls`, `cls` is registered and the call
returned exactly the registered instance. -/
theorem singleton_call_post (cls : Nat) (s : SingletonState) :
    ∃ i, (singleton_call cls s).1 = some i ∧
      dictGet (singleton_call cls s).2.table cls = some i := by
  unfold singleton_call
  by_cases hc : (dictGet s.table cls).isNone
  · exact ⟨s.nextId, by simp [hc, dictGet_dictSet_self],
      by simp [hc, dictGet_dictSet_self]⟩
  · cases hi : dictGet s.table cls with
    | none => rw [hi] at hc; simp at hc
    | some i => exact ⟨i, by simp [hc, hi], by simp [hc, hi]⟩

/-- Once `cls` is registered with instance `i`, every later wrapper call
for `cls` in any call sequence returns `some i`, and `cls` stays
registered with `i`. -/
theorem runCalls_stable (calls : List Nat) (cls i : Nat) (s : SingletonState)
    (hi : dictGet s.table cls = some i) :
    (∀ p ∈ (runCalls calls s).1, p.1 = cls → p.2 = some i) ∧
    dictGet (runCalls calls s).2.table cls = some i := by
  induction calls generalizing s with
  | nil => simpa [runCalls] using hi
  | cons c rest ih =>
      have hpres := singleton_call_preserves c cls i s hi
      obtain ⟨ih1, ih2⟩ := ih (singleton_call c s).2 hpres
      constructor
      · intro p hp hpc
        simp only [runCalls, List.mem_cons] at hp
        rcases hp with hp | hp
        · subst hp
          simp only at hpc
          subst hpc
          rw [singleton_call_found c i s hi]
        · exact ih1 p hp hpc
      · simpa [runCalls] using ih2

/-- All wrapper calls for a fixed class in one call sequence return the
same instance. -/
theorem runCalls_results_agree (calls : List Nat) (cls : Nat)
    (s : SingletonState) :
    ∃ i, ∀ p ∈ (runCalls calls s).1, p.1 = cls → p.2 = some i := by
  induction calls generalizing s with
  | nil => exact ⟨0, by simp [runCalls]⟩
  | cons c rest ih =>
      by_cases hc : c = cls
      · subst hc
        obtain ⟨i, h1, h2⟩ := singleton_call_post c s
        refine ⟨i, ?_⟩
        intro p hp hpc
        simp only [runCalls, List.mem_cons] at hp
        rcases hp with hp | hp
        · subst hp
          exact h1
        · exact (runCalls_stable rest c i _ h2).1 p hp hpc
      · obtain ⟨i, hi⟩ := ih (singleton_call c s).2
        refine ⟨i, ?_⟩
        intro p hp hpc
        simp only [runCalls, List.mem_cons] at hp
        rcases hp with hp | hp
        · subst hp
          exact absurd hpc hc
        · exact hi p hp hpc

/-- The invariant tying the construction log to the `INSTANCES` table:
no class is constructed twice, and a class has been constructed exactly
when it is registered. -/
def SingletonInv (s : SingletonState) : Prop :=
  s.constructed.Nodup ∧
  ∀ c, c ∈ s.constructed ↔ (dictGet s.table c).isSome

theorem singletonInv_init : SingletonInv initSingletonState := by
  constructor
  · simp [initSingletonState]
  · intro c
    simp [initSingletonState, dictGet]

theorem singletonInv_step (c : Nat) (s : SingletonState)
    (hs : SingletonInv s) : SingletonInv (singleton_call c s).2 := by
  obtain ⟨hnd, hmem⟩ := hs
  unfold singleton_call
  by_cases hc : (dictGet s.table c).isNone
  · have hnotmem : c ∉ s.constructed := by
      rw [hmem c]
      intro habs
      rw [Option.isNone_iff_eq_none] at hc
      rw [hc] at habs
      simp at habs
    constructor
    · simp only [hc, if_true]
      simp [List.nodup_append, hnd, hnotmem]
    · intro c2
      simp only [hc, if_true]
      simp only [List.mem_append, List.mem_singleton]
      by_cases hc2 : c2 = c
      · subst hc2
        simp [dictGet_dictSet_self]
      · rw [dictGet_dictSet_other s.table c c2 s.nextId hc2]
        simp [hc2, hmem c2]
  · simp only [hc, if_false]
    exact ⟨hnd, hmem⟩

theorem singletonInv_runCalls (calls : List Nat) (s : SingletonState)
    (hs : SingletonInv s) : SingletonInv (runCalls calls s).2 := by
  induction calls generalizing s with
  | nil => simpa [runCalls]
  | cons c rest ih =>
      simp only [runCalls]
      exact ih (singleton_call c s).2 (singletonInv_step c s hs)

/-- After any call sequence, a class that was called is registered. -/
theorem runCalls_called_registered (calls : List Nat) (cls : Nat)
    (s : SingletonState) (hmem : cls ∈ calls) :
    (dictGet (runCalls calls s).2.table cls).isSome := by
  induction calls generalizing s with
  | nil => simp at hmem
  | cons c rest ih =>
      simp only [runCalls]
      by_cases hc : c = cls
      · subst hc
        obtain ⟨i, _, h2⟩ := singleton_call_post c s
        rw [(runCalls_stable rest c i (singleton_call c s).2 h2).2]
        rfl
      · rcases List.mem_cons.mp hmem with hh | hh
        · exact absurd hh.symm hc
        · exact ih (singleton_call c s).2 hh

/-- C7: singleton restriction — for every class and every sequence of
wrapper calls from process start, all calls for that class return the same
instance; the class's constructor runs at most once (exactly once when the
class is called at all); and `MetaSingleton.__call__` likewise constructs
only on first call and afterwards returns the stored `_instance`. -/
theorem c7_singleton_restriction (calls : List Nat) (cls : Nat) :
    (∃ i, ∀ p ∈ (runCalls calls initSingletonState).1,
      p.1 = cls → p.2 = some i) ∧
    (runCalls calls initSingletonState).2.constructed.count cls ≤ 1 ∧
    (cls ∈ calls →
      (runCalls calls initSingletonState).2.constructed.count cls = 1) ∧
    (∀ fresh, metaSingletonCall none fresh = (fresh, some fresh)) ∧
    (∀ i fresh, metaSingletonCall (some i) fresh = (i, some i)) := by
  have hinv := singletonInv_runCalls calls initSingletonState singletonInv_init
  have hle := List.nodup_iff_count_le_one.mp hinv.1 cls
  refine ⟨runCalls_results_agree calls cls initSingletonState, hle, ?_,
    fun fresh => rfl, fun i fresh => rfl⟩
  intro hmem
  have hreg := runCalls_called_registered calls cls initSingletonState hmem
  have hin : cls ∈ (runCalls calls initSingletonState).2.constructed :=
    (hinv.2 cls).mpr hreg
  have hpos := List.count_pos_iff.mpr hin
  omega

/-- Witness for C7: the concrete call sequence `[4, 4, 9, 4]` — every call
for class 4 returns the same instance and class 4 is constructed exactly
once. -/
theorem c7_singleton_restriction_witness :
    (∃ i, ∀ p ∈ (runCalls [4, 4, 9, 4] initSingletonState).1,
      p.1 = 4 → p.2 = some i) ∧
    (runCalls [4, 4, 9, 4] initSingletonState).2.constructed.count 4 = 1 :=
  ⟨(c7_singleton_restriction [4, 4, 9, 4] 4).1,
   (c7_singleton_restriction [4, 4, 9, 4] 4).2.2.1 (by decide)⟩

/-- C8, the claim as stated is false: the wrapper takes no lock, so the
two threads' check-construct-store sequences can interleave.  Under the
concrete schedule A-check, B-check, A-construct, B-construct, A-store,
A-return, B-store, B-return (both threads constructing class 7 from
process start), the constructor runs twice and the threads observe two
different instances. -/
theorem c8_counterexample :
    (runSched 7 [false, true, false, true, false, false, true, true]
      twoThreadsInit).shared.constructed.length = 2 ∧
    (runSched 7 [false, true, false, true, false, false, true, true]
      twoThreadsInit).ta = TPC.done (some 0) ∧
    (runSched 7 [false, true, false, true, false, false, true, true]
      twoThreadsInit).tb = TPC.done (some 1) := by decide

/-- C8 (amended): the get-or-create path of the `singleton` wrapper is not
guarded by any mutual-exclusion primitive; when two threads' first calls
interleave, two instances can be constructed and the callers can observe
different instances.  When the two calls do not interleave (either serial
order), exactly one instance is constructed and both callers observe it. -/
theorem c8_serial_calls_safe (cls : Nat) :
    ((runSched cls [false, false, false, false, true, true, true, true]
        twoThreadsInit).shared.constructed = [cls] ∧
     (runSched cls [false, false, false, false, true, true, true, true]
        twoThreadsInit).ta = TPC.done (some 0) ∧
     (runSched cls [false, false, false, false, true, true, true, true]
        twoThreadsInit).tb = TPC.done (some 0)) ∧
    ((runSched cls [true, true, true, true, false, false, false, false]
        twoThreadsInit).shared.constructed = [cls] ∧
     (runSched cls [true, true, true, true, false, false, false, false]
        twoThreadsInit).ta = TPC.done (some 0) ∧
     (runSched cls [true, true, true, true, false, false, false, false]
        twoThreadsInit).tb = TPC.done (some 0)) := by
  constructor <;>
    simp [runSched, schedStep, threadStep, twoThreadsInit, initSingletonState,
      dictGet, dictSet]

/-- C9: encryption round-trip at the `Cypher` boundary — encrypting any
plaintext under the key derived from `(p, s)` and decrypting with the same
derived key yields the plaintext back; decrypting that token under a key
derived from any different `(p2, s2)` fails with `InvalidToken`; and the
encryption does produce a token (the key has been set by `password`). -/
theorem c9_encryption_round_trip (t p s p2 s2 : Bytes) :
    (∀ tok, (Cypher.init.password p s).encrypt t = some tok →
      (Cypher.init.password p s).decrypt tok =
        some (DecryptResult.ok t)) ∧
    ((p ≠ p2 ∨ s ≠ s2) →
      ∀ tok, (Cypher.init.password p s).encrypt t = some tok →
      (Cypher.init.password p2 s2).decrypt tok =
        some DecryptResult.invalidToken) ∧
    (∃ tok, (Cypher.init.password p s).encrypt t = some tok) := by
  refine ⟨?_, ?_, ?_⟩
  · intro tok htok
    simp only [Cypher.init, Cypher.password, Cypher.encrypt,
      Option.some.injEq] at htok
    subst htok
    simp [Cypher.decrypt, Cypher.password, Cypher.init, fernetDecrypt,
      fernetEncrypt, encode, Symmetric.init, Symmetric.key, Symmetric.derive]
  · intro hne tok htok
    simp only [Cypher.init, Cypher.password, Cypher.encrypt,
      Option.some.injEq] at htok
    subst htok
    have hkey : (Symmetric.init (encode s)).key (encode p) ≠
        (Symmetric.init (encode s2)).key (encode p2) := by
      intro he
      simp only [Symmetric.init, Symmetric.key, Symmetric.derive, encode,
        B64Key.mk.injEq, KeyMaterial.mk.injEq] at he
      rcases hne with h | h
      · exact h he.1
      · exact h he.2
    simp [Cypher.decrypt, Cypher.password, Cypher.init, fernetDecrypt,
      fernetEncrypt, hkey]
  · exact ⟨fernetEncrypt ((Symmetric.init (encode s)).key (encode p))
      (encode t), rfl⟩

/-- Witness for C9: concrete plaintext `[1, 2]`, password `[3]`, salt
`[4]`, and the differently derived key from password `[5]`, salt `[4]`. -/
theorem c9_encryption_round_trip_witness :
    (Cypher.init.password [3] [4]).decrypt
      (Token.mk (B64Key.mk (KeyMaterial.mk [3] [4])) [1, 2]) =
      some (DecryptResult.ok [1, 2]) ∧
    (Cypher.init.password [5] [4]).decrypt
      (Token.mk (B64Key.mk (KeyMaterial.mk [3] [4])) [1, 2]) =
      some DecryptResult.invalidToken :=
  ⟨(c9_encryption_round_trip [1, 2] [3] [4] [5] [4]).1
      (Token.mk (B64Key.mk (KeyMaterial.mk [3] [4])) [1, 2]) rfl,
   (c9_encryption_round_trip [1, 2] [3] [4] [5] [4]).2.1
      (Or.inl (by decide))
      (Token.mk (B64Key.mk (KeyMaterial.mk [3] [4])) [1, 2]) rfl⟩

end CustomLib
